import Mathlib

/-!
Shallow embedding of the color-grading image processor of OpenXR-Toolkit
(src/XR_APILAYER_NOVENDOR_toolkit/imageprocess.cpp).

Machine floats of the source (DirectX XMVECTOR operations) are modelled as
exact rationals; 32-bit signed setting integers as Int.  Fallible array
accesses are modelled as Option-valued lookups.  The graphics device is
modelled as the trace of calls issued against it.
-/

namespace ImageProc

/-- The `DirectX::XMINT4` type: a quadruple of signed integers. -/
structure Int4 where
  x : Int
  y : Int
  z : Int
  w : Int
deriving DecidableEq, Repr

/-- A 4-component float vector (`XMVECTORF32` / `XrVector4f`), modelled over ℚ. -/
structure Vec4 where
  x : ℚ
  y : ℚ
  z : ℚ
  w : ℚ
deriving DecidableEq, Repr

/-- The three raw setting groups returned by `GetUserParams`:
group a = contrast, brightness, exposure, saturation;
group b = colorGainR, colorGainG, colorGainB, 0;
group c = highlights, shadows, vibrance, 0. -/
structure RawTriple where
  a : Int4
  b : Int4
  c : Int4
deriving DecidableEq, Repr

/-- The packed parameter block `struct alignas(16) ImageProcessorConfig`. -/
structure Block where
  params1 : Vec4
  params2 : Vec4
  params3 : Vec4
deriving DecidableEq, Repr

/-- The `XMVectorSaturate` operation: clamp a component to [0, 1]. -/
def saturate (q : ℚ) : ℚ := max 0 (min 1 q)

/-- The expression `XMVectorSaturate((XMLoadSInt4(&raw) + XMLoadSInt4(&bias)) * 0.001f)`:
add the bias, scale by 0.001 and clamp each component to [0,1]. -/
def satScale (raw bias : Int4) : Vec4 :=
  ⟨saturate (((raw.x + bias.x : Int) : ℚ) * (1 / 1000)),
   saturate (((raw.y + bias.y : Int) : ℚ) * (1 / 1000)),
   saturate (((raw.z + bias.z : Int) : ℚ) * (1 / 1000)),
   saturate (((raw.w + bias.w : Int) : ℚ) * (1 / 1000))⟩

/-- The expression `(params * 2.0 - XMVectorSplatOne()) * kGain[0][g]`: the
remap and gain applied to the Params1 and Params2 groups. -/
def remapGain (p g : Vec4) : Vec4 :=
  ⟨(p.x * 2 - 1) * g.x, (p.y * 2 - 1) * g.y, (p.z * 2 - 1) * g.z, (p.w * 2 - 1) * g.w⟩

/-- The expression `params3 * kGain[0][2]`: the plain gain applied to the
Params3 group. -/
def mulGain (p g : Vec4) : Vec4 :=
  ⟨p.x * g.x, p.y * g.y, p.z * g.z, p.w * g.w⟩

/-- Row 0 of `kGain` (the single row): the fixed per-group gain vectors. -/
def kGain : Fin 3 → Vec4
  | 0 => ⟨1, 4 / 5, 3, 1⟩
  | 1 => ⟨1, 1, 1, 1⟩
  | 2 => ⟨1, 1 / 2, 1, 1⟩

/-- One preset entry of `kBias`: three integer bias quadruples. -/
def BiasEntry := Int4 × Int4 × Int4
deriving DecidableEq, Repr

/-- The value `to_integral(PostSunGlassesType::MaxValue)`: number of presets. -/
abbrev numPresets : Nat := 4

/-- The `kBias` table: none, sunglasses light, sunglasses dark, deep night. -/
def kBiasTable : List BiasEntry :=
  [(⟨0, 0, 0, 0⟩, ⟨0, 0, 0, 0⟩, ⟨0, 0, 0, 0⟩),
   (⟨25, -50, -50, 0⟩, ⟨0, 0, 0, 0⟩, ⟨20, 0, 0, 0⟩),
   (⟨25, -100, -100, 0⟩, ⟨0, 0, 0, 0⟩, ⟨400, 50, 0, 0⟩),
   (⟨5, -400, 200, -150⟩, ⟨0, 0, 0, 0⟩, ⟨750, 150, 25, 0⟩)]

/-- The lookup `kBias[bias]` for a validated preset ordinal. -/
def kBias : Fin numPresets → BiasEntry
  | 0 => (⟨0, 0, 0, 0⟩, ⟨0, 0, 0, 0⟩, ⟨0, 0, 0, 0⟩)
  | 1 => (⟨25, -50, -50, 0⟩, ⟨0, 0, 0, 0⟩, ⟨20, 0, 0, 0⟩)
  | 2 => (⟨25, -100, -100, 0⟩, ⟨0, 0, 0, 0⟩, ⟨400, 50, 0, 0⟩)
  | 3 => (⟨5, -400, 200, -150⟩, ⟨0, 0, 0, 0⟩, ⟨750, 150, 25, 0⟩)

/-- The fallible `kBias[bias]` lookup for an arbitrary ordinal: an ordinal
outside [0, MaxValue) yields `none` (the fatal programming error), never a
junk entry. -/
def presetFor (i : Nat) : Option BiasEntry :=
  kBiasTable.get? i

/-- The body of `updateConfig` after fetching the user params and the preset
ordinal: compute the packed parameter block from the raw triple and the
preset's bias row. -/
def normalizeBlock (raw : RawTriple) (p : Fin numPresets) : Block :=
  let bias := kBias p
  ⟨remapGain (satScale raw.a bias.1) (kGain 0),
   remapGain (satScale raw.b bias.2.1) (kGain 1),
   mulGain (satScale raw.c bias.2.2) (kGain 2)⟩

/-- The `enum class PostProcessType`: the processing mode. -/
inductive PostProcessType where
  | Off
  | On
deriving DecidableEq, Repr

/-- The named settings the processor reads or change-checks
(`SettingPostContrast`, …, `SettingPostSunGlasses`). -/
inductive SettingKey where
  | contrast
  | brightness
  | exposure
  | saturation
  | colorGainR
  | colorGainG
  | colorGainB
  | highlights
  | shadows
  | vibrance
  | sunGlasses
deriving DecidableEq, Repr

/-- The `IConfigManager` as the processor consumes it: the decoded mode and
preset enums, per-setting integer values (keyed by setting and by the profile
suffix string appended to the setting name), and per-setting change flags. -/
structure ConfigSource where
  mode : PostProcessType
  preset : Fin numPresets
  getValue : SettingKey → String → Int
  hasChanged : SettingKey → Bool

/-- The body of the non-null branch of `GetUserParams` once a suffix string is
chosen: fetch the three setting groups. -/
def userRaw (c : ConfigSource) (suffix : String) : RawTriple :=
  ⟨⟨c.getValue .contrast suffix, c.getValue .brightness suffix,
    c.getValue .exposure suffix, c.getValue .saturation suffix⟩,
   ⟨c.getValue .colorGainR suffix, c.getValue .colorGainG suffix,
    c.getValue .colorGainB suffix, 0⟩,
   ⟨c.getValue .highlights suffix, c.getValue .shadows suffix,
    c.getValue .vibrance suffix, 0⟩⟩

/-- The suffix table `lut` of `GetUserParams`: five entries, the default
profile and four alternate profiles. -/
def suffixLut : List String := ["", "_u1", "_u2", "_u3", "_u4"]

/-- The function `ImageProcessor::GetUserParams(configManager, index)`: the
suffix is the lut entry at position `std::min(index, std::size(lut))`; the
array access is modelled as a fallible lookup (`none` = out-of-bounds access).
A null config manager yields the hard-coded defaults. -/
def GetUserParams (cm : Option ConfigSource) (index : Nat) : Option RawTriple :=
  match cm with
  | some c => (suffixLut.get? (min index suffixLut.length)).map (userRaw c)
  | none => some ⟨⟨500, 500, 500, 500⟩, ⟨500, 500, 500, 0⟩, ⟨0, 0, 0, 0⟩⟩

/-- The function `ImageProcessor::updateConfig` as a map from the configuration
state to the block it stores and uploads: fetch the profile-0 user params and
the preset ordinal, and normalize. -/
def updateConfigBlock (c : ConfigSource) : Block :=
  normalizeBlock (userRaw c "") c.preset

/-- The change detector `ImageProcessor::checkUpdateConfig(mode)`. -/
def checkUpdateConfig (c : ConfigSource) (mode : PostProcessType) : Bool :=
  if mode ≠ PostProcessType.Off then
    c.hasChanged .sunGlasses || c.hasChanged .contrast || c.hasChanged .brightness ||
    c.hasChanged .exposure || c.hasChanged .saturation || c.hasChanged .vibrance ||
    c.hasChanged .highlights || c.hasChanged .shadows || c.hasChanged .colorGainR ||
    c.hasChanged .colorGainG || c.hasChanged .colorGainB
  else false

/-- The mutable state of an `ImageProcessor`: `m_mode`, the constructor-time
`m_userParams`, the current `m_config` block, and the trace of constant-buffer
uploads performed through `m_cbParams->uploadData`. -/
structure ProcessorState where
  mode : PostProcessType
  userParams : RawTriple
  config : Block
  uploads : List Block
deriving DecidableEq, Repr

/-- The tail of `updateConfig`: store the freshly computed block in `m_config`
and upload it to the constant buffer. -/
def applyUpdateConfig (s : ProcessorState) (c : ConfigSource) : ProcessorState :=
  let b := updateConfigBlock c
  { s with config := b, uploads := s.uploads ++ [b] }

/-- The method `ImageProcessor::update()`: read the mode, adopt it if it
changed, and recompute the parameter block when the new mode is non-Off and
either the mode changed or the change detector fires. -/
def update (s : ProcessorState) (c : ConfigSource) : ProcessorState :=
  let mode := c.mode
  let s1 := if mode ≠ s.mode then { s with mode := mode } else s
  if mode ≠ PostProcessType.Off ∧ (mode ≠ s.mode ∨ checkUpdateConfig c mode = true) then
    applyUpdateConfig s1 c
  else s1

/-- The constructor: `m_mode` starts Off, `m_userParams` is
`GetUserParams(configManager.get(), 1)`, and `createRenderResources` ends with
one unconditional `updateConfig()`. -/
def mkProcessor (c : ConfigSource) : Option ProcessorState :=
  (GetUserParams (some c) 1).map fun up =>
    let b := updateConfigBlock c
    ⟨PostProcessType.Off, up, b, [b]⟩

/-- The calls `process` issues against the `IDevice`. -/
inductive DeviceCmd where
  | setShader (idx : Nat)
  | setShaderInputBuffer (slot : Nat)
  | setShaderInputTexture (slot : Nat) (slice : Int)
  | setShaderOutput (slot : Nat) (slice : Int)
  | dispatchShader
deriving DecidableEq, Repr

/-- The selector `m_mode != PostProcessType::Off ? 1 + input->isArray() : 0`. -/
def shaderIndex (mode : PostProcessType) (isArray : Bool) : Nat :=
  if mode ≠ PostProcessType.Off then 1 + (if isArray then 1 else 0) else 0

/-- The method `ImageProcessor::process(input, output, slice)`: select the
shader variant and issue the fixed bind/dispatch sequence. -/
def process (s : ProcessorState) (isArray : Bool) (slice : Int) : List DeviceCmd :=
  [.setShader (shaderIndex s.mode isArray), .setShaderInputBuffer 0,
   .setShaderInputTexture 0 slice, .setShaderOutput 0 slice, .dispatchShader]

/-- Modelled from the spec: the Raw Setting Source's own enum decoding
(the config manager's `getEnumValue<PostSunGlassesType>`, not under src/)
validates the stored integer into the closed enum space [0, MaxValue). -/
def decodeSunGlasses (v : Int) : Nat :=
  (max 0 (min v ((numPresets : Int) - 1))).toNat

/-- Spec section 4.1 step 2's clamp, written the spec's way: clamp to [0, 1]. -/
def specClamp01 (q : ℚ) : ℚ := min (max q 0) 1

/-- Spec section 4.1 step 1: add the preset's integer bias to the raw group,
component-wise. -/
def specAdd (a b : Int4) : Int4 := ⟨a.x + b.x, a.y + b.y, a.z + b.z, a.w + b.w⟩

/-- Spec section 4.1 step 2: divide by 1000 and clamp each component to [0, 1]. -/
def specDivClamp (v : Int4) : Vec4 :=
  ⟨specClamp01 ((v.x : ℚ) / 1000), specClamp01 ((v.y : ℚ) / 1000),
   specClamp01 ((v.z : ℚ) / 1000), specClamp01 ((v.w : ℚ) / 1000)⟩

/-- Component-wise map over a vector. -/
def vmap (f : ℚ → ℚ) (v : Vec4) : Vec4 := ⟨f v.x, f v.y, f v.z, f v.w⟩

/-- Component-wise product of two vectors. -/
def vmul (a b : Vec4) : Vec4 := ⟨a.x * b.x, a.y * b.y, a.z * b.z, a.w * b.w⟩

/-- The Parameter Normalizer as spec section 4.1 words it: per group, add the
bias, divide by 1000 and clamp to [0,1]; for the Params1/Params2 groups remap
via value*2 - 1 and multiply by the gain vector; for the Params3 group
multiply the clamped value directly by the gain vector, with no remap and no
re-clamp. -/
def specNormalize (raw : RawTriple) (p : Fin numPresets) : Block :=
  let e := kBias p
  ⟨vmul (vmap (fun q => q * 2 - 1) (specDivClamp (specAdd raw.a e.1))) (kGain 0),
   vmul (vmap (fun q => q * 2 - 1) (specDivClamp (specAdd raw.b e.2.1))) (kGain 1),
   vmul (specDivClamp (specAdd raw.c e.2.2)) (kGain 2)⟩

/-- A raw quadruple with every component in the documented range [0, 1000]. -/
def Int4.inRange (v : Int4) : Prop :=
  0 ≤ v.x ∧ v.x ≤ 1000 ∧ 0 ≤ v.y ∧ v.y ≤ 1000 ∧
  0 ≤ v.z ∧ v.z ≤ 1000 ∧ 0 ≤ v.w ∧ v.w ≤ 1000

instance (v : Int4) : Decidable v.inRange := by
  unfold Int4.inRange; infer_instance

/-- A raw setting triple with every component in [0, 1000]. -/
def RawTriple.inRange (r : RawTriple) : Prop :=
  r.a.inRange ∧ r.b.inRange ∧ r.c.inRange

instance (r : RawTriple) : Decidable r.inRange := by
  unfold RawTriple.inRange; infer_instance

/-- A value lying in the symmetric interval [-g, g]. -/
def withinSym (g q : ℚ) : Prop := -g ≤ q ∧ q ≤ g

/-- A neutral all-midpoint raw triple, used as a concrete input. -/
def r500 : RawTriple := ⟨⟨500, 500, 500, 500⟩, ⟨500, 500, 500, 0⟩, ⟨500, 500, 500, 0⟩⟩

/-- The block computed from `r500` at preset none. -/
def blk500 : Block := normalizeBlock r500 0

/-- A concrete processor state whose stored mode is Off. -/
def sOff : ProcessorState := ⟨PostProcessType.Off, r500, blk500, []⟩

/-- A concrete processor state whose stored mode is On. -/
def sOn : ProcessorState := ⟨PostProcessType.On, r500, blk500, []⟩

/-- A concrete configuration: mode On, preset none, all values 500, nothing
changed. -/
def cOn : ConfigSource := ⟨PostProcessType.On, 0, fun _ _ => 500, fun _ => false⟩

/-- A concrete configuration: mode Off, preset none, all values 500, nothing
changed. -/
def cOff : ConfigSource := ⟨PostProcessType.Off, 0, fun _ _ => 500, fun _ => false⟩

/-- A concrete configuration: mode Off but every change flag raised. -/
def cOffAllChanged : ConfigSource := ⟨PostProcessType.Off, 0, fun _ _ => 500, fun _ => true⟩

/-- A raw input on which the sunglasses-light preset is absorbed by
saturation: contrast and highlights already at the ceiling, brightness and
exposure already at the floor. -/
def rawSat : RawTriple := ⟨⟨1000, 0, 0, 500⟩, ⟨500, 500, 500, 0⟩, ⟨1000, 500, 500, 0⟩⟩

/-- A raw input, inside [0, 1000], whose exposure slider is at the ceiling. -/
def rawExpo : RawTriple := ⟨⟨500, 500, 1000, 500⟩, ⟨500, 500, 500, 0⟩, ⟨500, 500, 500, 0⟩⟩

/-- A concrete configuration whose profile-0 values are 400 and whose
suffixed-profile values are 111. -/
def cAltA : ConfigSource :=
  ⟨PostProcessType.On, 1, fun _ suffix => if suffix = "" then 400 else 111, fun _ => false⟩

/-- Like `cAltA` but with suffixed-profile values 999 instead of 111. -/
def cAltB : ConfigSource :=
  ⟨PostProcessType.On, 1, fun _ suffix => if suffix = "" then 400 else 999, fun _ => false⟩

/-- A state built with `cAltA`'s alternate profile in `m_userParams`. -/
def sAltA : ProcessorState := ⟨PostProcessType.Off, userRaw cAltA "_u1", blk500, []⟩

/-- A state built with `cAltB`'s alternate profile in `m_userParams`. -/
def sAltB : ProcessorState := ⟨PostProcessType.Off, userRaw cAltB "_u1", blk500, []⟩

/-! ## Helper lemmas -/

/-- Each validated ordinal hits the row of the fallible table that `kBias`
returns: the two views of the bias table agree. -/
theorem presetFor_val (p : Fin numPresets) : presetFor p.val = some (kBias p) := by
  fin_cases p <;> rfl

/-- Index 0 (the default profile) is in bounds: `GetUserParams(cm, 0)` is the
empty-suffix fetch. -/
theorem getUserParams_zero (c : ConfigSource) :
    GetUserParams (some c) 0 = some (userRaw c "") := rfl

/-- The two clamp formulations agree. -/
theorem saturate_eq_specClamp01 (q : ℚ) : saturate q = specClamp01 q := by
  unfold saturate specClamp01
  simp only [min_def, max_def]
  split_ifs <;> linarith

/-- The source's fused load-add-scale-saturate agrees with the spec's
add-then-divide-then-clamp. -/
theorem satScale_eq_specDivClamp (a b : Int4) :
    satScale a b = specDivClamp (specAdd a b) := by
  unfold satScale specDivClamp specAdd
  simp only [Vec4.mk.injEq, saturate_eq_specClamp01]
  refine ⟨?_, ?_, ?_, ?_⟩ <;> · congr 1; push_cast; ring

/-- Saturated values are nonnegative. -/
theorem saturate_nonneg (q : ℚ) : 0 ≤ saturate q := le_max_left 0 _

/-- Saturated values are at most one. -/
theorem saturate_le_one (q : ℚ) : saturate q ≤ 1 :=
  max_le (by norm_num) (min_le_left 1 q)

/-- Saturation is the identity on [0, 1]. -/
theorem saturate_id (q : ℚ) (h0 : 0 ≤ q) (h1 : q ≤ 1) : saturate q = q := by
  unfold saturate
  rw [min_eq_right h1, max_eq_right h0]

/-- The remap-then-gain result is bounded by the gain in absolute value. -/
theorem remap_bound (q g : ℚ) (hg : 0 ≤ g) : withinSym g ((saturate q * 2 - 1) * g) := by
  have h0 := saturate_nonneg q
  have h1 := saturate_le_one q
  constructor <;> nlinarith

/-- The mode stored after `update` is the mode just read. -/
theorem update_mode (s : ProcessorState) (c : ConfigSource) :
    (update s c).mode = c.mode := by
  unfold update applyUpdateConfig
  by_cases h : c.mode = s.mode
  · simp [h]
    split_ifs <;> rfl
  · simp [h]
    split_ifs <;> rfl

/-- The detector never fires when no change flag is raised. -/
theorem checkUpdateConfig_noflags (c : ConfigSource) (m : PostProcessType)
    (h : ∀ k, c.hasChanged k = false) : checkUpdateConfig c m = false := by
  unfold checkUpdateConfig
  split_ifs <;> simp [h]

/-- An update that sees an unchanged mode and no raised change flag leaves the
state untouched. -/
theorem update_noop (s : ProcessorState) (c : ConfigSource) (hm : c.mode = s.mode)
    (hflags : ∀ k, c.hasChanged k = false) : update s c = s := by
  have h1 : ¬(c.mode ≠ s.mode) := fun h => h hm
  have h2 : ¬(c.mode ≠ PostProcessType.Off ∧
      (c.mode ≠ s.mode ∨ checkUpdateConfig c c.mode = true)) := by
    rintro ⟨-, h | h⟩
    · exact h1 h
    · rw [checkUpdateConfig_noflags c _ hflags] at h
      cases h
  simp only [update]
  rw [if_neg h1, if_neg h2]

/-! ## Claim theorems -/

/-- C1: for every preset ordinal and raw setting triple, `updateConfig`
computes each packed group exactly as the spec words it: add the preset's
integer bias component-wise, divide by 1000 and clamp to [0,1], then remap by
value*2 - 1 and multiply by the gain vector for Params1/Params2, and multiply
the saturated value directly by the gain vector for Params3 with no remap and
no re-clamp. -/
theorem normalize_matches_spec :
    (∀ (raw : RawTriple) (p : Fin numPresets), normalizeBlock raw p = specNormalize raw p) ∧
    (∀ c : ConfigSource, updateConfigBlock c = specNormalize (userRaw c "") c.preset) := by
  have key : ∀ (raw : RawTriple) (p : Fin numPresets),
      normalizeBlock raw p = specNormalize raw p := by
    intro raw p
    simp only [normalizeBlock, specNormalize]
    rw [satScale_eq_specDivClamp, satScale_eq_specDivClamp, satScale_eq_specDivClamp]
    rfl
  exact ⟨key, fun c => key (userRaw c "") c.preset⟩

/-- C2 counterexample: a raw input inside [0..1000] with preset none whose
normalized exposure component is 3, outside [-1, +1] (the exposure gain
is 3, not 1). -/
theorem params1_exposure_exceeds_unit_interval :
    rawExpo.inRange ∧ (normalizeBlock rawExpo 0).params1.z = 3 ∧
    ¬ withinSym 1 ((normalizeBlock rawExpo 0).params1.z) := by
  refine ⟨by decide, ?_, ?_⟩
  · norm_num [normalizeBlock, rawExpo, kBias, satScale, saturate, remapGain, mulGain,
      kGain, min_def, max_def]
  · intro h
    rw [show (normalizeBlock rawExpo 0).params1.z = 3 from by
      norm_num [normalizeBlock, rawExpo, kBias, satScale, saturate, remapGain, mulGain,
        kGain, min_def, max_def]] at h
    exact absurd h.2 (by norm_num)

/-- C2 amended: for raw inputs in [0..1000] and preset none, each Params2
component lies in [-1, +1], and each Params1 component lies in [-g, +g] for
that component's fixed gain — contrast and saturation in [-1, +1], brightness
in [-4/5, +4/5], exposure in [-3, +3]. -/
theorem params_bounded_by_gain (raw : RawTriple) (_h : raw.inRange) :
    withinSym 1 (normalizeBlock raw 0).params1.x ∧
    withinSym (4 / 5) (normalizeBlock raw 0).params1.y ∧
    withinSym 3 (normalizeBlock raw 0).params1.z ∧
    withinSym 1 (normalizeBlock raw 0).params1.w ∧
    withinSym 1 (normalizeBlock raw 0).params2.x ∧
    withinSym 1 (normalizeBlock raw 0).params2.y ∧
    withinSym 1 (normalizeBlock raw 0).params2.z ∧
    withinSym 1 (normalizeBlock raw 0).params2.w := by
  have hg0 : kGain 0 = ⟨1, 4 / 5, 3, 1⟩ := rfl
  have hg1 : kGain 1 = ⟨1, 1, 1, 1⟩ := rfl
  simp only [normalizeBlock, remapGain, satScale, hg0, hg1]
  exact ⟨remap_bound _ 1 (by norm_num), remap_bound _ (4 / 5) (by norm_num),
    remap_bound _ 3 (by norm_num), remap_bound _ 1 (by norm_num),
    remap_bound _ 1 (by norm_num), remap_bound _ 1 (by norm_num),
    remap_bound _ 1 (by norm_num), remap_bound _ 1 (by norm_num)⟩

/-- C2 witness: the bounds instantiated at the all-midpoint raw input. -/
theorem params_bounded_by_gain_witness :
    r500.inRange ∧
    (withinSym 1 (normalizeBlock r500 0).params1.x ∧
     withinSym (4 / 5) (normalizeBlock r500 0).params1.y ∧
     withinSym 3 (normalizeBlock r500 0).params1.z ∧
     withinSym 1 (normalizeBlock r500 0).params1.w ∧
     withinSym 1 (normalizeBlock r500 0).params2.x ∧
     withinSym 1 (normalizeBlock r500 0).params2.y ∧
     withinSym 1 (normalizeBlock r500 0).params2.z ∧
     withinSym 1 (normalizeBlock r500 0).params2.w) :=
  ⟨by decide, params_bounded_by_gain r500 (by decide)⟩

/-- C3 counterexample: a transition from On to Off, even with every change
flag raised, performs no recompute and no upload — the stored mode changes but
the block and the upload trace do not. -/
theorem transition_to_off_skips_recompute :
    sOn.mode ≠ cOffAllChanged.mode ∧
    update sOn cOffAllChanged = { sOn with mode := PostProcessType.Off } ∧
    (update sOn cOffAllChanged).uploads = sOn.uploads ∧
    (update sOn cOffAllChanged).config = sOn.config := by
  exact ⟨by decide, rfl, rfl, rfl⟩

/-- C3 amended: a mode transition whose new mode is non-Off forces exactly one
recompute and upload on that call, regardless of the change detector's flags;
a transition to Off performs none. -/
theorem transition_to_nonoff_forces_recompute (s : ProcessorState) (c : ConfigSource)
    (hOff : c.mode ≠ PostProcessType.Off) (hne : c.mode ≠ s.mode) :
    update s c = applyUpdateConfig { s with mode := c.mode } c ∧
    (update s c).uploads.length = s.uploads.length + 1 ∧
    (update s c).config = updateConfigBlock c := by
  simp only [update]
  rw [if_pos hne, if_pos ⟨hOff, Or.inl hne⟩]
  refine ⟨rfl, ?_, rfl⟩
  simp [applyUpdateConfig]

/-- C3 witness: an Off-to-On transition with no change flag raised still
uploads exactly once. -/
theorem transition_to_nonoff_forces_recompute_witness :
    cOn.mode ≠ PostProcessType.Off ∧ cOn.mode ≠ sOff.mode ∧
    (update sOff cOn = applyUpdateConfig { sOff with mode := cOn.mode } cOn ∧
     (update sOff cOn).uploads.length = sOff.uploads.length + 1 ∧
     (update sOff cOn).config = updateConfigBlock cOn) :=
  ⟨by decide, by decide,
   transition_to_nonoff_forces_recompute sOff cOn (by decide) (by decide)⟩

/-- C4: the bias-table lookup succeeds exactly on ordinals below MaxValue —
an out-of-range ordinal is detected (the lookup is `none`, the fatal error)
rather than yielding a junk entry — and every ordinal produced by the setting
source's validating enum decode is in range. -/
theorem presetFor_bounds_checked :
    (∀ i : Nat, (presetFor i).isSome = true ↔ i < numPresets) ∧
    (∀ v : Int, (presetFor (decodeSunGlasses v)).isSome = true) := by
  have klen : kBiasTable.length = numPresets := rfl
  have key : ∀ i : Nat, (presetFor i).isSome = true ↔ i < numPresets := by
    intro i
    unfold presetFor
    constructor
    · intro h
      by_contra hlt
      rw [List.get?_len_le (by omega : kBiasTable.length ≤ i)] at h
      simp at h
    · intro h
      rw [List.get?_eq_get (klen ▸ h)]
      rfl
  refine ⟨key, fun v => (key _).mpr ?_⟩
  show (max 0 (min v ((4 : Int) - 1))).toNat < 4
  have h := min_le_right v ((4 : Int) - 1)
  omega

/-- C5: the change detector returns false whenever the mode is Off, and for a
non-Off mode it returns true exactly when the preset selector or one of the
named tunables changed — a logical OR over the per-setting change flags, with
no other state consulted. -/
theorem checkUpdateConfig_iff (c : ConfigSource) (mode : PostProcessType) :
    checkUpdateConfig c mode = true ↔
      (mode ≠ PostProcessType.Off ∧
        (c.hasChanged .sunGlasses = true ∨ c.hasChanged .contrast = true ∨
         c.hasChanged .brightness = true ∨ c.hasChanged .exposure = true ∨
         c.hasChanged .saturation = true ∨ c.hasChanged .vibrance = true ∨
         c.hasChanged .highlights = true ∨ c.hasChanged .shadows = true ∨
         c.hasChanged .colorGainR = true ∨ c.hasChanged .colorGainG = true ∨
         c.hasChanged .colorGainB = true)) := by
  unfold checkUpdateConfig
  split_ifs with h
  · simp only [Bool.or_eq_true, or_assoc, true_and, iff_true_intro h, true_and]
  · simp [h]

/-- C6 counterexample: two successive updates in the steady Off state with no
change flags perform zero recomputes on the first call, not exactly one. -/
theorem steady_off_first_update_no_upload :
    cOff.mode = sOff.mode ∧ (∀ k, cOff.hasChanged k = false) ∧
    update (update sOff cOff) cOff = update sOff cOff ∧
    (update sOff cOff).uploads.length = 0 :=
  ⟨rfl, fun _ => rfl, rfl, rfl⟩

/-- C6 amended: an update seeing the same mode as the previous call and no
raised change flag is the identity, so a second back-to-back call performs
zero recomputes; any single call performs at most one upload; and a call whose
mode is Off, or whose mode is unchanged with no relevant setting changed,
performs no recompute and no upload. -/
theorem update_noop_properties :
    (∀ (s : ProcessorState) (c1 c2 : ConfigSource), c2.mode = c1.mode →
      (∀ k, c2.hasChanged k = false) → update (update s c1) c2 = update s c1) ∧
    (∀ (s : ProcessorState) (c : ConfigSource),
      (update s c).uploads.length ≤ s.uploads.length + 1) ∧
    (∀ (s : ProcessorState) (c : ConfigSource),
      c.mode = PostProcessType.Off ∨ (c.mode = s.mode ∧ ∀ k, c.hasChanged k = false) →
      (update s c).uploads = s.uploads ∧ (update s c).config = s.config) := by
  refine ⟨?_, ?_, ?_⟩
  · intro s c1 c2 hmode hflags
    exact update_noop _ c2 (hmode.trans (update_mode s c1).symm) hflags
  · intro s c
    simp only [update, applyUpdateConfig]
    split_ifs <;> simp
  · intro s c h
    rcases h with h | ⟨hm, hflags⟩
    · have h2 : ¬(c.mode ≠ PostProcessType.Off ∧
          (c.mode ≠ s.mode ∨ checkUpdateConfig c c.mode = true)) := fun hc => hc.1 h
      simp only [update]
      rw [if_neg h2]
      split_ifs <;> exact ⟨rfl, rfl⟩
    · rw [update_noop s c hm hflags]
      exact ⟨rfl, rfl⟩

/-- C6 witness: the no-op facts instantiated at concrete states. -/
theorem update_noop_properties_witness :
    (cOn.mode = cOn.mode ∧ (∀ k, cOn.hasChanged k = false) ∧
     update (update sOff cOn) cOn = update sOff cOn) ∧
    (update sOff cOn).uploads.length ≤ sOff.uploads.length + 1 ∧
    (cOff.mode = PostProcessType.Off ∧
     (update sOn cOff).uploads = sOn.uploads ∧ (update sOn cOff).config = sOn.config) :=
  ⟨⟨rfl, fun _ => rfl, update_noop_properties.1 sOff cOn cOn rfl (fun _ => rfl)⟩,
   update_noop_properties.2.1 sOff cOn,
   ⟨rfl, update_noop_properties.2.2 sOn cOff (Or.inl rfl)⟩⟩

/-- C7: the shader variant is a function of the mode and the array-ness alone —
0 when the mode is Off, 1 when non-Off on a non-array input, 2 when non-Off on
an array input — and every `process` call issues exactly one dispatch and
binds that variant. -/
theorem process_variant_selection (s : ProcessorState) (isArray : Bool) (slice : Int) :
    shaderIndex s.mode isArray =
      (if s.mode = PostProcessType.Off then 0 else if isArray then 2 else 1) ∧
    (process s isArray slice).head? = some (DeviceCmd.setShader (shaderIndex s.mode isArray)) ∧
    (process s isArray slice).count DeviceCmd.dispatchShader = 1 := by
  refine ⟨?_, rfl, ?_⟩
  · cases h : s.mode <;> cases isArray <;> simp [shaderIndex, h]
  · simp [process, List.count_cons]

/-- C8 counterexample: with contrast and highlights already at the ceiling
and brightness and exposure at the floor — all inside [0..1000] — switching
from preset none to the non-neutral sunglasses-light preset leaves every
component of the packed block unchanged: the bias is absorbed by saturation. -/
theorem preset_change_can_leave_block_unchanged :
    rawSat.inRange ∧ kBias 1 ≠ kBias 0 ∧
    normalizeBlock rawSat 1 = normalizeBlock rawSat 0 := by
  refine ⟨by decide, by decide, ?_⟩
  norm_num [normalizeBlock, rawSat, kBias, satScale, saturate, remapGain, mulGain,
    kGain, min_def, max_def]

/-- C8 amended: switching from preset none to any non-neutral preset changes
at least one component of the packed block for every raw input whose contrast
component does not saturate after the preset's contrast bias is added
(0 ≤ contrast and contrast + bias ≤ 1000); without that proviso the bias can
be absorbed by saturation and the block can be unchanged. -/
theorem preset_changes_block_without_saturation (raw : RawTriple) (p : Fin numPresets)
    (hp : p ≠ 0) (h0 : 0 ≤ raw.a.x) (h1 : raw.a.x + (kBias p).1.x ≤ 1000) :
    normalizeBlock raw p ≠ normalizeBlock raw 0 := by
  intro heq
  have hx := congrArg (fun b => b.params1.x) heq
  simp only [normalizeBlock, remapGain, satScale,
    show (kGain 0).x = (1 : ℚ) from rfl, mul_one,
    show (kBias 0).1.x = (0 : Int) from rfl] at hx
  rcases p with ⟨pv, hpv⟩
  interval_cases pv
  · exact hp rfl
  · have hb : (kBias ⟨1, by omega⟩).1.x = (25 : Int) := rfl
    rw [hb] at h1 hx
    rw [saturate_id _ (by positivity) (by
        rw [mul_comm]
        rw [show ((raw.a.x + 25 : Int) : ℚ) = ((raw.a.x : ℚ) + 25) by push_cast; ring]
        have : ((raw.a.x : ℚ) + 25) ≤ 1000 := by exact_mod_cast h1
        linarith),
      saturate_id _ (by positivity) (by
        rw [mul_comm]
        have : ((raw.a.x : ℚ)) ≤ 975 := by exact_mod_cast (by omega : raw.a.x ≤ 975)
        have h0q : (0 : ℚ) ≤ (raw.a.x : ℚ) := by exact_mod_cast h0
        push_cast
        linarith)] at hx
    push_cast at hx
    linarith
  · have hb : (kBias ⟨2, by omega⟩).1.x = (25 : Int) := rfl
    rw [hb] at h1 hx
    rw [saturate_id _ (by positivity) (by
        rw [mul_comm]
        rw [show ((raw.a.x + 25 : Int) : ℚ) = ((raw.a.x : ℚ) + 25) by push_cast; ring]
        have : ((raw.a.x : ℚ) + 25) ≤ 1000 := by exact_mod_cast h1
        linarith),
      saturate_id _ (by positivity) (by
        rw [mul_comm]
        have : ((raw.a.x : ℚ)) ≤ 975 := by exact_mod_cast (by omega : raw.a.x ≤ 975)
        have h0q : (0 : ℚ) ≤ (raw.a.x : ℚ) := by exact_mod_cast h0
        push_cast
        linarith)] at hx
    push_cast at hx
    linarith
  · have hb : (kBias ⟨3, by omega⟩).1.x = (5 : Int) := rfl
    rw [hb] at h1 hx
    rw [saturate_id _ (by positivity) (by
        rw [mul_comm]
        rw [show ((raw.a.x + 5 : Int) : ℚ) = ((raw.a.x : ℚ) + 5) by push_cast; ring]
        have : ((raw.a.x : ℚ) + 5) ≤ 1000 := by exact_mod_cast h1
        linarith),
      saturate_id _ (by positivity) (by
        rw [mul_comm]
        have : ((raw.a.x : ℚ)) ≤ 995 := by exact_mod_cast (by omega : raw.a.x ≤ 995)
        have h0q : (0 : ℚ) ≤ (raw.a.x : ℚ) := by exact_mod_cast h0
        push_cast
        linarith)] at hx
    push_cast at hx
    linarith

/-- C8 witness: at the midpoint input, each non-neutral preset changes the
block. -/
theorem preset_changes_block_without_saturation_witness :
    ((1 : Fin numPresets) ≠ 0 ∧ 0 ≤ r500.a.x ∧ r500.a.x + (kBias 1).1.x ≤ 1000 ∧
      normalizeBlock r500 1 ≠ normalizeBlock r500 0) ∧
    normalizeBlock r500 2 ≠ normalizeBlock r500 0 ∧
    normalizeBlock r500 3 ≠ normalizeBlock r500 0 :=
  ⟨⟨by decide, by decide, by decide,
    preset_changes_block_without_saturation r500 1 (by decide) (by decide) (by decide)⟩,
   preset_changes_block_without_saturation r500 2 (by decide) (by decide) (by decide),
   preset_changes_block_without_saturation r500 3 (by decide) (by decide) (by decide)⟩

/-- C9: the parameter block and all observable update effects depend only on
the default-suffix (profile 0) setting values, the preset, the mode and the
change flags: two configuration states agreeing on those produce identical
blocks, and updates from observably equal states (regardless of the stored
`m_userParams`) agree on mode, block and upload trace; `update` never touches
`m_userParams`, and `process` output depends only on the stored mode. -/
theorem outputs_independent_of_userParams (c1 c2 : ConfigSource)
    (hmode : c1.mode = c2.mode) (hpreset : c1.preset = c2.preset)
    (hval : ∀ k, c1.getValue k "" = c2.getValue k "")
    (hch : ∀ k, c1.hasChanged k = c2.hasChanged k) :
    updateConfigBlock c1 = updateConfigBlock c2 ∧
    (∀ s1 s2 : ProcessorState, s1.mode = s2.mode → s1.config = s2.config →
      s1.uploads = s2.uploads →
      (update s1 c1).mode = (update s2 c2).mode ∧
      (update s1 c1).config = (update s2 c2).config ∧
      (update s1 c1).uploads = (update s2 c2).uploads) ∧
    (∀ s : ProcessorState, (update s c1).userParams = s.userParams) ∧
    (∀ (s1 s2 : ProcessorState), s1.mode = s2.mode → ∀ (ar : Bool) (sl : Int),
      process s1 ar sl = process s2 ar sl) := by
  have hur : userRaw c1 "" = userRaw c2 "" := by
    unfold userRaw
    rw [hval, hval, hval, hval, hval, hval, hval, hval, hval, hval]
  have hblock : updateConfigBlock c1 = updateConfigBlock c2 := by
    unfold updateConfigBlock
    rw [hur, hpreset]
  have hcu : ∀ m, checkUpdateConfig c1 m = checkUpdateConfig c2 m := by
    intro m
    unfold checkUpdateConfig
    rw [hch, hch, hch, hch, hch, hch, hch, hch, hch, hch, hch]
  refine ⟨hblock, ?_, ?_, ?_⟩
  · intro s1 s2 hm hcfg hup
    simp only [update, applyUpdateConfig, hmode, hm, hcu, hblock]
    split_ifs <;> simp [hm, hcfg, hup]
  · intro s
    simp only [update, applyUpdateConfig]
    split_ifs <;> rfl
  · intro s1 s2 hm ar sl
    simp [process, shaderIndex, hm]

/-- C9 witness: two sources identical on profile 0 but with different
alternate-profile values, and states carrying those different alternate
profiles in `m_userParams`, produce the same block and the same update
effects. -/
theorem outputs_independent_of_userParams_witness :
    cAltA.mode = cAltB.mode ∧ cAltA.preset = cAltB.preset ∧
    sAltA.userParams ≠ sAltB.userParams ∧
    updateConfigBlock cAltA = updateConfigBlock cAltB ∧
    ((update sAltA cAltA).mode = (update sAltB cAltB).mode ∧
     (update sAltA cAltA).config = (update sAltB cAltB).config ∧
     (update sAltA cAltA).uploads = (update sAltB cAltB).uploads) :=
  ⟨rfl, rfl, by decide,
   (outputs_independent_of_userParams cAltA cAltB rfl rfl (fun _ => rfl) (fun _ => rfl)).1,
   (outputs_independent_of_userParams cAltA cAltB rfl rfl (fun _ => rfl)
     (fun _ => rfl)).2.1 sAltA sAltB rfl rfl rfl⟩

/-- C10: the suffix-table access of `GetUserParams` is NOT total — the clamp
`std::min(index, std::size(lut))` maps every index ≥ 5 to position 5, one past
the end of the 5-entry table, so the access is out of bounds there; it is in
bounds exactly for indices below 5. -/
theorem getUserParams_index_five_oob :
    (∀ c : ConfigSource, GetUserParams (some c) 5 = none) ∧
    (∀ (c : ConfigSource) (i : Nat),
      (GetUserParams (some c) i).isSome = true ↔ i < suffixLut.length) ∧
    min 5 suffixLut.length = suffixLut.length := by
  refine ⟨fun c => rfl, ?_, rfl⟩
  intro c i
  show (Option.map (userRaw c) (suffixLut.get? (min i suffixLut.length))).isSome = true ↔
    i < suffixLut.length
  by_cases h : i < suffixLut.length
  · rw [min_eq_left (by omega), List.get?_eq_get h]
    simpa using h
  · rw [min_eq_right (by omega), List.get?_len_le (le_refl _)]
    simpa using h

end ImageProc
